import Mathlib

/-!
Verification development for the html-css-to-image service.

Python strings are modelled as `List Char`; Python `str.lower()` is
`List.map Char.toLower` (all markers involved are ASCII), Python's
substring test `needle in hay` is `containsSub`, and Python's
`hay.replace(old, new, 1)` (with non-empty `old`) is `replaceFirst`.
Machine integers are `Int` (Python ints are unbounded, so no wrap-around
is modelled); the float `scale` is modelled as `ℚ`.
-/

namespace HtmlToImage

/-- Python `s.lower()` restricted to the ASCII markers used by the code. -/
def lowerStr (s : List Char) : List Char := s.map Char.toLower

/-- Python substring test `needle in hay` (left-to-right scan).
For an empty needle this is `true`, as in Python. -/
def containsSub (needle : List Char) : List Char → Bool
  | [] => needle.isEmpty
  | c :: t => needle.isPrefixOf (c :: t) || containsSub needle t

/-- Split `s` at the first occurrence of the non-empty pattern `old`:
`some (p, q)` with `s = p ++ old ++ q` and `p` minimal, `none` when
`old` does not occur in `s`. -/
def splitFirst (old : List Char) : List Char → Option (List Char × List Char)
  | [] => none
  | c :: t =>
    if old.isPrefixOf (c :: t) then some ([], (c :: t).drop old.length)
    else (splitFirst old t).map (fun pq => (c :: pq.1, pq.2))

/-- Python `s.replace(old, new, 1)` for a non-empty `old`: replace the
first occurrence of `old` by `new`, leave `s` unchanged when `old` does
not occur. -/
def replaceFirst (old new : List Char) : List Char → List Char
  | [] => []
  | c :: t =>
    if old.isPrefixOf (c :: t) then new ++ (c :: t).drop old.length
    else c :: replaceFirst old new t

/-! ### Configuration (`app/config.py`) -/

/-- `RenderConfig` from `app/config.py` with its literal defaults. -/
structure RenderConfig where
  default_width : Int := 1024
  default_height : Int := 768
  default_quality : Int := 100
  default_scale : ℚ := 1
  max_width : Int := 4096
  max_height : Int := 4096

/-- The module-level `render_config` instance. -/
def render_config : RenderConfig := {}

/-! ### Document Composer (`HTMLRenderer._build_html_document`) -/

/-- The `css_block` local of `_build_html_document`: a style element when
`css_content` is truthy (present and non-empty), the empty string otherwise. -/
def cssBlockOf : Option (List Char) → List Char
  | none => []
  | some c => if c.isEmpty then [] else "<style>".toList ++ c ++ "</style>".toList

/-- Python truthiness of the optional `css_content` argument. -/
def cssPresent : Option (List Char) → Bool
  | none => false
  | some c => !c.isEmpty

/-- The completeness test of `_build_html_document`:
`"<html" in html_content.lower() or "<!doctype" in html_content.lower()`. -/
def hasDocMarker (html_content : List Char) : Bool :=
  containsSub "<html".toList (lowerStr html_content) ||
    containsSub "<!doctype".toList (lowerStr html_content)

/-- Skeleton text before the `css_block` interpolation point (wrap branch). -/
def skeletonPre : List Char :=
  ("<!DOCTYPE html>\n<html lang=\"pt-BR\">\n<head>\n    <meta charset=\"UTF-8\">\n"
    ++ "    <meta name=\"viewport\" content=\"width=device-width, initial-scale=1.0\">\n    ").toList

/-- Skeleton text between the `css_block` and `html_content` interpolation points. -/
def skeletonMid : List Char :=
  "\n</head>\n<body style=\"margin: 0; padding: 0;\">\n    ".toList

/-- Skeleton text after the `html_content` interpolation point. -/
def skeletonPost : List Char := "\n</body>\n</html>".toList

/-- `HTMLRenderer._build_html_document` from `app/renderer.py`. -/
def buildHtmlDocument (html_content : List Char) (css_content : Option (List Char)) :
    List Char :=
  let css_block := cssBlockOf css_content
  if hasDocMarker html_content then
    if cssPresent css_content then
      if containsSub "<head>".toList (lowerStr html_content) then
        replaceFirst "</head>".toList (css_block ++ "</head>".toList) html_content
      else
        replaceFirst "<html>".toList
          ("<html><head>".toList ++ css_block ++ "</head>".toList) html_content
    else html_content
  else
    skeletonPre ++ css_block ++ skeletonMid ++ html_content ++ skeletonPost

/-! ### Dimension Validator (`HTMLRenderer._validate_dimensions`) -/

/-- Result of `_validate_dimensions`; `warned` records whether the
`logger.warning` call fired. -/
structure ValidatedDims where
  width : Int
  height : Int
  warned : Bool
deriving DecidableEq

/-- `HTMLRenderer._validate_dimensions` from `app/renderer.py`. -/
def validate_dimensions (width height : Int) : ValidatedDims :=
  let validated_width := max 1 (min width render_config.max_width)
  let validated_height := max 1 (min height render_config.max_height)
  { width := validated_width
    height := validated_height
    warned := validated_width != width || validated_height != height }

/-! ### Render operation (`HTMLRenderer.render_to_image`) -/

/-- Python `x or default` for an optional int parameter: `None` and `0` are
falsy and replaced by the default; any other value (negatives included) is
kept. -/
def orDefaultInt : Option Int → Int → Int
  | none, d => d
  | some v, d => if v = 0 then d else v

/-- Python `x or default` for the float `scale` parameter. -/
def orDefaultQ : Option ℚ → ℚ → ℚ
  | none, d => d
  | some v, d => if v = 0 then d else v

/-- Failures of the browser interaction steps of `render_to_image`. -/
inductive RenderErr where
  | renderTimeout
  | engineFailure
deriving DecidableEq

/-- Observable effects of one `render_to_image` call: the viewport the page
was opened with, the document loaded into it, the screenshot options, and
whether `page.close()` ran. -/
structure RenderTrace where
  viewportWidth : Int
  viewportHeight : Int
  deviceScaleFactor : ℚ
  clampWarned : Bool
  loadedDocument : List Char
  fullPage : Bool
  omitBackground : Bool
  pageClosed : Bool
deriving DecidableEq

/-- `HTMLRenderer.render_to_image` from `app/renderer.py`. The two browser
steps that can throw — `page.set_content` (step 4, e.g. a `networkidle`
timeout) and `page.screenshot` (step 6) — are injected as outcomes. The
body has no `finally`: `page.close()` only runs after a successful
screenshot; the `except` clause logs and re-raises without closing. -/
def render_to_image (html_content : List Char) (css_content : Option (List Char))
    (width height : Option Int) (scale : Option ℚ)
    (full_page transparent : Bool)
    (loadOutcome : Except RenderErr Unit)
    (shotOutcome : Except RenderErr (List Nat)) :
    Except RenderErr (List Nat) × RenderTrace :=
  let width0 := orDefaultInt width render_config.default_width
  let height0 := orDefaultInt height render_config.default_height
  let scale0 := orDefaultQ scale render_config.default_scale
  let v := validate_dimensions width0 height0
  let full_html := buildHtmlDocument html_content css_content
  match loadOutcome with
  | .error e =>
    (.error e,
      ⟨v.width, v.height, scale0, v.warned, full_html, full_page, transparent, false⟩)
  | .ok _ =>
    match shotOutcome with
    | .error e =>
      (.error e,
        ⟨v.width, v.height, scale0, v.warned, full_html, full_page, transparent, false⟩)
    | .ok image_bytes =>
      (.ok image_bytes,
        ⟨v.width, v.height, scale0, v.warned, full_html, full_page, transparent, true⟩)

/-! ### Render Session Pool (`HTMLRenderer._get_browser`) -/

/-- A Playwright browser handle: identity plus the `is_connected()` liveness
predicate. -/
structure Browser where
  id : Nat
  is_connected : Bool
deriving DecidableEq

/-- Result of one `_get_browser` call: the handle returned, the new cached
state of `self._browser`, and whether `chromium.launch` ran. -/
structure AcquireResult where
  browser : Browser
  cached : Option Browser
  launched : Bool
deriving DecidableEq

/-- `HTMLRenderer._get_browser` from `app/renderer.py`: relaunch iff
`self._browser is None or not self._browser.is_connected()`; `fresh` is the
handle a `chromium.launch` call would produce. -/
def get_browser (cached : Option Browser) (fresh : Browser) : AcquireResult :=
  match cached with
  | some b => if b.is_connected then ⟨b, some b, false⟩ else ⟨fresh, some fresh, true⟩
  | none => ⟨fresh, some fresh, true⟩

/-! ### Artifact Store (`app/s3_service.py`) -/

/-- Python `f"{n:02d}"` for the `Nat` range used here. -/
def pad2 (n : Nat) : List Char :=
  if n < 10 then '0' :: (Nat.repr n).toList else (Nat.repr n).toList

/-- `S3Service._generate_key`: `prefix/YYYY/MM/DD/uuid.extension` built from
the calendar date at upload time and the fresh `uuid4().hex` value. -/
def generate_key (keyPrefix extension : List Char) (year month day : Nat)
    (unique_id : List Char) : List Char :=
  keyPrefix ++ "/".toList ++ (Nat.repr year).toList ++ "/".toList ++ pad2 month
    ++ "/".toList ++ pad2 day ++ "/".toList ++ unique_id ++ ".".toList ++ extension

/-- `S3Service._get_public_url`. -/
def get_public_url (bucket region : List Char) (endpoint_url : Option (List Char))
    (key : List Char) : List Char :=
  match endpoint_url with
  | some ep => ep ++ "/".toList ++ bucket ++ "/".toList ++ key
  | none =>
    "https://".toList ++ bucket ++ ".s3.".toList ++ region
      ++ ".amazonaws.com/".toList ++ key

/-- The exceptions `upload_bytes` can raise: the `ValueError` for a missing
bucket, or the re-raised botocore `ClientError` carrying the upstream error
code. -/
inductive UploadError where
  | notConfigured
  | clientError (code : List Char)
deriving DecidableEq

/-- Side effects of one `upload_bytes` call, in program order: building the
boto3 client, generating the key, and issuing the `put_object` network call. -/
structure UploadEffects where
  clientCreated : Bool
  keyGenerated : Bool
  putAttempted : Bool
deriving DecidableEq

/-- The dict returned by a successful `upload_bytes`. -/
structure UploadResult where
  key : List Char
  url : List Char
  bucket : List Char
  size : Nat
  content_type : List Char
deriving DecidableEq

/-- `S3Service.upload_bytes` from `app/s3_service.py`. The upstream
`put_object` outcome is injected (`.error code` for a `ClientError` with that
upstream code). The empty bucket check runs before the client is built, the
key generated, or the network touched; a `ClientError` is logged and
re-raised unchanged. -/
def upload_bytes (bucket region : List Char) (endpoint_url : Option (List Char))
    (dataLen : Nat) (content_type keyPrefix extension : List Char)
    (year month day : Nat) (unique_id : List Char)
    (putOutcome : Except (List Char) Unit) :
    Except UploadError UploadResult × UploadEffects :=
  if bucket.isEmpty then (.error .notConfigured, ⟨false, false, false⟩)
  else
    let key := generate_key keyPrefix extension year month day unique_id
    match putOutcome with
    | .error code => (.error (.clientError code), ⟨true, true, true⟩)
    | .ok _ =>
      (.ok ⟨key, get_public_url bucket region endpoint_url key, bucket, dataLen,
            content_type⟩,
       ⟨true, true, true⟩)

/-- `S3Service.delete_object` from `app/s3_service.py`: the upstream
`delete_object` outcome is injected. A `ClientError` is caught, logged and
turned into the return value `False`; the surrounding `Except` layer models
"may raise", which this function never uses. -/
def delete_object (bucket key : List Char) (deleteOutcome : Except (List Char) Unit) :
    Except (List Char) Bool :=
  match deleteOutcome with
  | .ok _ => .ok true
  | .error _ => .ok false

/-! ### Delivery Orchestrator (`generate_image` in `app/main.py`) -/

/-- `ResponseFormat` from `app/models.py`. -/
inductive ResponseFormat where
  | url
  | base64
  | both
deriving DecidableEq

/-- The base64 alphabet used by Python's `base64.b64encode`. -/
def b64Alphabet : List Char :=
  "ABCDEFGHIJKLMNOPQRSTUVWXYZabcdefghijklmnopqrstuvwxyz0123456789+/".toList

/-- One base64 digit. -/
def b64Char (n : Nat) : Char := b64Alphabet.getD n '='

/-- `base64.b64encode` over a byte list (each entry `< 256`), with `=`
padding. -/
def b64encode : List Nat → List Char
  | [] => []
  | [b1] =>
    let n := b1 * 65536
    [b64Char (n / 262144 % 64), b64Char (n / 4096 % 64), '=', '=']
  | [b1, b2] =>
    let n := b1 * 65536 + b2 * 256
    [b64Char (n / 262144 % 64), b64Char (n / 4096 % 64), b64Char (n / 64 % 64), '=']
  | b1 :: b2 :: b3 :: rest =>
    let n := b1 * 65536 + b2 * 256 + b3
    b64Char (n / 262144 % 64) :: b64Char (n / 4096 % 64) :: b64Char (n / 64 % 64)
      :: b64Char (n % 64) :: b64encode rest

/-- `ImageGenerateResponse` from `app/models.py`, restricted to the fields
the endpoint fills in (the request-echo metadata entries and the timestamp
are omitted). -/
structure ImageGenerateResponse where
  success : Bool
  url : Option (List Char)
  base64 : Option (List Char)
  s3_key : Option (List Char)
  s3_bucket : Option (List Char)
  size_bytes : Nat
deriving DecidableEq

/-- `ErrorResponse` from `app/models.py` (`success` is always `False`). -/
structure ErrorResponse where
  error : List Char
  message : List Char
deriving DecidableEq

/-- The `generate_image` endpoint of `app/main.py`. Renderer and S3
outcomes are injected. An `HTTPException` (bucket unset) and the generic
`except Exception` wrapper both reach the caller as an `ErrorResponse`
produced by the registered exception handlers, with `error = "HTTP_ERROR"`;
either way the handler path returns only the error payload, so any
`response_data` entries (including the base64 inline data) computed before
the raise are discarded. -/
def generate_image (response_format : ResponseFormat)
    (renderOutcome : Except (List Char) (List Nat))
    (bucket region : List Char) (endpoint_url : Option (List Char))
    (year month day : Nat) (unique_id : List Char)
    (putOutcome : Except (List Char) Unit) :
    Except ErrorResponse ImageGenerateResponse :=
  match renderOutcome with
  | .error msg =>
    .error ⟨"HTTP_ERROR".toList, "Erro ao gerar imagem: ".toList ++ msg⟩
  | .ok image_bytes =>
    let b64data : Option (List Char) :=
      if response_format = .base64 ∨ response_format = .both then
        some ("data:image/png;base64,".toList ++ b64encode image_bytes)
      else none
    if response_format = .url ∨ response_format = .both then
      if bucket.isEmpty then
        .error ⟨"HTTP_ERROR".toList,
          "Bucket S3 não configurado. Configure a variável AWS_S3_BUCKET".toList⟩
      else
        match (upload_bytes bucket region endpoint_url image_bytes.length
            "image/png".toList "images".toList "png".toList
            year month day unique_id putOutcome).1 with
        | .error (.clientError code) =>
          .error ⟨"HTTP_ERROR".toList, "Erro ao gerar imagem: ".toList ++ code⟩
        | .error .notConfigured =>
          .error ⟨"HTTP_ERROR".toList, "Erro ao gerar imagem: ".toList
            ++ "Bucket S3 não configurado. Defina a variável de ambiente AWS_S3_BUCKET".toList⟩
        | .ok up =>
          .ok ⟨true, some up.url, b64data, some up.key, some up.bucket,
               image_bytes.length⟩
    else
      .ok ⟨true, none, b64data, none, none, image_bytes.length⟩

/-! ### General lemmas about the string machinery -/

lemma isPrefixOf_iff_append {p s : List Char} :
    p.isPrefixOf s = true ↔ ∃ r, s = p ++ r := by
  rw [List.isPrefixOf_iff_prefix]
  constructor
  · rintro ⟨r, hr⟩
    exact ⟨r, hr.symm⟩
  · rintro ⟨r, hr⟩
    exact hr ▸ List.prefix_append p r

lemma drop_append_of_isPrefixOf {p s : List Char} (h : p.isPrefixOf s = true) :
    s = p ++ s.drop p.length := by
  obtain ⟨r, hr⟩ := isPrefixOf_iff_append.mp h
  subst hr
  simp

/-- `splitFirst` really splits at an occurrence of the pattern. -/
lemma splitFirst_eq_append {old s p q : List Char}
    (h : splitFirst old s = some (p, q)) : s = p ++ old ++ q := by
  induction s generalizing p with
  | nil => simp [splitFirst] at h
  | cons c t ih =>
    rw [splitFirst] at h
    by_cases hp : old.isPrefixOf (c :: t) = true
    · simp only [hp, if_true, Option.some.injEq, Prod.mk.injEq] at h
      obtain ⟨hp1, hq⟩ := h
      subst hp1; subst hq
      simpa using drop_append_of_isPrefixOf hp
    · simp only [hp, if_false] at h
      cases hsp : splitFirst old t with
      | none => rw [hsp] at h; simp at h
      | some pq =>
        obtain ⟨p', q'⟩ := pq
        rw [hsp] at h
        simp only [Option.map_some', Option.some.injEq, Prod.mk.injEq] at h
        obtain ⟨hp1, hq⟩ := h
        simpa using ih hsp

/-- `splitFirst` splits at the FIRST occurrence: any other occurrence
starts no earlier. -/
lemma splitFirst_minimal {old s p q : List Char}
    (h : splitFirst old s = some (p, q)) :
    ∀ p' q', s = p' ++ old ++ q' → p.length ≤ p'.length := by
  induction s generalizing p q with
  | nil => simp [splitFirst] at h
  | cons c t ih =>
    intro p' q' hs
    rw [splitFirst] at h
    by_cases hp : old.isPrefixOf (c :: t) = true
    · simp only [hp, if_true, Option.some.injEq, Prod.mk.injEq] at h
      obtain ⟨hp1, _⟩ := h
      subst hp1
      exact Nat.zero_le _
    · simp only [hp, if_false] at h
      cases hsp : splitFirst old t with
      | none => rw [hsp] at h; simp at h
      | some pq1 =>
        obtain ⟨p1, q1⟩ := pq1
        rw [hsp] at h
        simp only [Option.map_some', Option.some.injEq, Prod.mk.injEq] at h
        obtain ⟨hp1, hq1⟩ := h
        cases p' with
        | nil =>
          exfalso
          apply hp
          rw [isPrefixOf_iff_append]
          exact ⟨q', by simpa using hs⟩
        | cons c' t' =>
          simp only [List.cons_append, List.cons.injEq] at hs
          obtain ⟨_, hs2⟩ := hs
          simpa using Nat.succ_le_succ (ih hsp t' q' hs2)

/-- `replaceFirst` in terms of `splitFirst`. -/
lemma replaceFirst_eq_splitFirst (old new s : List Char) :
    replaceFirst old new s =
      match splitFirst old s with
      | none => s
      | some (p, q) => p ++ new ++ q := by
  induction s with
  | nil => simp [replaceFirst, splitFirst]
  | cons c t ih =>
    rw [replaceFirst, splitFirst]
    by_cases hp : old.isPrefixOf (c :: t) = true
    · simp [hp]
    · simp only [hp, if_false]
      rw [ih]
      cases hsp : splitFirst old t with
      | none => simp
      | some pq => cases pq; simp

/-- When the pattern does not occur, `replaceFirst` is the identity. -/
lemma splitFirst_none_of_not_contains {old s : List Char}
    (h : containsSub old s = false) : splitFirst old s = none := by
  induction s with
  | nil => simp [splitFirst]
  | cons c t ih =>
    rw [containsSub, Bool.or_eq_false_iff] at h
    rw [splitFirst, if_neg (by simp [h.1]), ih h.2]
    rfl

lemma replaceFirst_of_not_contains {old s : List Char} (new : List Char)
    (h : containsSub old s = false) : replaceFirst old new s = s := by
  rw [replaceFirst_eq_splitFirst, splitFirst_none_of_not_contains h]

/-! ### Claim theorems -/

/-- C6: `_validate_dimensions` returns each requested dimension clamped
into `[1, 4096]` (the configured `max_width`/`max_height` default); a value
already within bounds is returned exactly unchanged; the warning event
fires exactly when a value was changed; validation is a total function and
never fails or rejects the request. -/
theorem validate_dimensions_clamps (width height : Int) :
    (1 ≤ (validate_dimensions width height).width
      ∧ (validate_dimensions width height).width ≤ 4096
      ∧ 1 ≤ (validate_dimensions width height).height
      ∧ (validate_dimensions width height).height ≤ 4096)
    ∧ (1 ≤ width → width ≤ 4096 → (validate_dimensions width height).width = width)
    ∧ (1 ≤ height → height ≤ 4096 → (validate_dimensions width height).height = height)
    ∧ ((validate_dimensions width height).warned = true ↔
        ((validate_dimensions width height).width ≠ width
          ∨ (validate_dimensions width height).height ≠ height)) := by
  simp only [validate_dimensions, render_config, bne_iff_ne, Bool.or_eq_true,
    decide_eq_true_eq]
  refine ⟨⟨?_, ?_, ?_, ?_⟩, ?_, ?_, ?_⟩
  all_goals first
  | omega
  | trivial

/-- Witness for C6 at the in-range input `800 × 600`. -/
theorem validate_dimensions_clamps_witness :
    (validate_dimensions 800 600).width = 800
      ∧ (validate_dimensions 800 600).height = 600 :=
  ⟨(validate_dimensions_clamps 800 600).2.1 (by decide) (by decide),
   (validate_dimensions_clamps 800 600).2.2.1 (by decide) (by decide)⟩

/-- C9: `_get_browser` is idempotent while the cached handle is connected —
repeated acquisitions return the same handle, leave the cache unchanged and
launch nothing; when the cache is empty or the cached handle is
disconnected, a fresh engine is launched and cached. -/
theorem get_browser_idempotent (cached : Option Browser) (fresh fresh2 : Browser) :
    (∀ b, cached = some b → b.is_connected = true →
      get_browser cached fresh = ⟨b, some b, false⟩
      ∧ get_browser (get_browser cached fresh).cached fresh2 = ⟨b, some b, false⟩)
    ∧ (cached = none → get_browser cached fresh = ⟨fresh, some fresh, true⟩)
    ∧ (∀ b, cached = some b → b.is_connected = false →
      get_browser cached fresh = ⟨fresh, some fresh, true⟩) := by
  refine ⟨?_, ?_, ?_⟩
  · rintro b rfl hb
    simp [get_browser, hb]
  · rintro rfl
    simp [get_browser]
  · rintro b rfl hb
    simp [get_browser, hb]

/-- Witness for C9: a connected cached handle is returned as-is, twice. -/
theorem get_browser_idempotent_witness :
    get_browser (some ⟨0, true⟩) ⟨1, true⟩ = ⟨⟨0, true⟩, some ⟨0, true⟩, false⟩
      ∧ get_browser (get_browser (some ⟨0, true⟩) ⟨1, true⟩).cached ⟨2, true⟩
          = ⟨⟨0, true⟩, some ⟨0, true⟩, false⟩ :=
  (get_browser_idempotent (some ⟨0, true⟩) ⟨1, true⟩ ⟨2, true⟩).1 ⟨0, true⟩ rfl rfl

/-- C5: a fragment without document markers is wrapped in the minimal
skeleton — UTF-8 charset, responsive viewport directive, zero-margin body —
with the fragment present verbatim and exactly the one style block built
from `css` inserted into the head (and the empty string inserted when css
is absent); the skeleton itself contains no style block. -/
theorem buildHtmlDocument_wraps_fragment (html_content : List Char)
    (css_content : Option (List Char))
    (h : hasDocMarker html_content = false) :
    buildHtmlDocument html_content css_content
      = skeletonPre ++ cssBlockOf css_content ++ skeletonMid
        ++ html_content ++ skeletonPost
    ∧ (css_content = none → cssBlockOf css_content = [])
    ∧ (∀ c, css_content = some c → c ≠ [] →
        cssBlockOf css_content = "<style>".toList ++ c ++ "</style>".toList)
    ∧ containsSub "<style>".toList (skeletonPre ++ skeletonMid ++ skeletonPost) = false
    ∧ containsSub "charset=\"UTF-8\"".toList skeletonPre = true
    ∧ containsSub "name=\"viewport\"".toList skeletonPre = true
    ∧ containsSub "margin: 0; padding: 0".toList skeletonMid = true := by
  refine ⟨?_, ?_, ?_, by decide, by decide, by decide, by decide⟩
  · simp [buildHtmlDocument, h]
  · rintro rfl
    rfl
  · rintro c rfl hc
    rw [cssBlockOf, if_neg]
    simp [hc]

/-- Witness for C5 at the fragment `<div>Hi</div>` with css `b`. -/
theorem buildHtmlDocument_wraps_fragment_witness :
    hasDocMarker "<div>Hi</div>".toList = false
    ∧ buildHtmlDocument "<div>Hi</div>".toList (some "b".toList)
        = skeletonPre ++ cssBlockOf (some "b".toList) ++ skeletonMid
          ++ "<div>Hi</div>".toList ++ skeletonPost :=
  ⟨by decide,
   (buildHtmlDocument_wraps_fragment "<div>Hi</div>".toList (some "b".toList)
      (by decide)).1⟩

/-- C4 counterexample: a complete document whose head tags are uppercase.
The head-section test is case-insensitive (`"<head>" in
html_content.lower()`), but the replacement target `"</head>"` is matched
case-sensitively against the original text, so for `<HEAD></HEAD>` no style
block is inserted at all and the document is returned without any
insertion — contradicting "compose inserts exactly one style block". -/
theorem buildHtmlDocument_uppercase_head_no_insertion :
    buildHtmlDocument "<html><HEAD></HEAD><body>x</body></html>".toList
        (some "b".toList)
      = "<html><HEAD></HEAD><body>x</body></html>".toList
    ∧ containsSub "<style>".toList
        (buildHtmlDocument "<html><HEAD></HEAD><body>x</body></html>".toList
          (some "b".toList)) = false := by
  constructor <;> decide

/-- C4 amended: for a fragment with a root document marker and non-empty
css, when a head section is detected (case-insensitively) the style block
is inserted immediately before the first occurrence of the literal
lowercase `</head>` marker, all other content preserved byte-for-byte, and
the fragment is returned unchanged when that literal does not occur; when
no head section is detected, a synthesized head is spliced in at the first
occurrence of the literal `<html>`, and the fragment is returned unchanged
when that literal does not occur. -/
theorem buildHtmlDocument_complete_doc (html_content css : List Char)
    (hdoc : hasDocMarker html_content = true) (hcss : css ≠ []) :
    (containsSub "<head>".toList (lowerStr html_content) = true →
      (∀ p q, splitFirst "</head>".toList html_content = some (p, q) →
        html_content = p ++ "</head>".toList ++ q
        ∧ buildHtmlDocument html_content (some css)
            = p ++ "<style>".toList ++ css ++ "</style>".toList
              ++ "</head>".toList ++ q
        ∧ (∀ p' q', html_content = p' ++ "</head>".toList ++ q' →
            p.length ≤ p'.length))
      ∧ (splitFirst "</head>".toList html_content = none →
          buildHtmlDocument html_content (some css) = html_content))
    ∧ (containsSub "<head>".toList (lowerStr html_content) = false →
      (∀ p q, splitFirst "<html>".toList html_content = some (p, q) →
        html_content = p ++ "<html>".toList ++ q
        ∧ buildHtmlDocument html_content (some css)
            = p ++ "<html><head>".toList ++ "<style>".toList ++ css
              ++ "</style>".toList ++ "</head>".toList ++ q)
      ∧ (splitFirst "<html>".toList html_content = none →
          buildHtmlDocument html_content (some css) = html_content)) := by
  have hpres : cssPresent (some css) = true := by
    simp [cssPresent, hcss]
  have hblock : cssBlockOf (some css)
      = "<style>".toList ++ css ++ "</style>".toList := by
    rw [cssBlockOf, if_neg]
    simp [hcss]
  constructor
  · intro hhead
    constructor
    · intro p q hsplit
      refine ⟨splitFirst_eq_append hsplit, ?_, splitFirst_minimal hsplit⟩
      simp only [buildHtmlDocument, hdoc, hpres, hhead, if_true]
      rw [replaceFirst_eq_splitFirst, hsplit, hblock]
      simp [List.append_assoc]
    · intro hnone
      simp only [buildHtmlDocument, hdoc, hpres, hhead, if_true]
      rw [replaceFirst_eq_splitFirst, hnone]
  · intro hhead
    constructor
    · intro p q hsplit
      refine ⟨splitFirst_eq_append hsplit, ?_⟩
      simp only [buildHtmlDocument, hdoc, hpres, hhead, if_true, if_false,
        Bool.false_eq_true]
      rw [replaceFirst_eq_splitFirst, hsplit, hblock]
      simp [List.append_assoc]
    · intro hnone
      simp only [buildHtmlDocument, hdoc, hpres, hhead, if_true, if_false,
        Bool.false_eq_true]
      rw [replaceFirst_eq_splitFirst, hnone]

/-- Witness for the amended C4 at a lowercase complete document. -/
theorem buildHtmlDocument_complete_doc_witness :
    buildHtmlDocument "<html><head></head><body>y</body></html>".toList
        (some "b".toList)
      = "<html><head>".toList ++ "<style>".toList ++ "b".toList
        ++ "</style>".toList ++ "</head>".toList
        ++ "<body>y</body></html>".toList :=
  ((((buildHtmlDocument_complete_doc
        "<html><head></head><body>y</body></html>".toList "b".toList
        (by decide) (by decide)).1 (by decide)).1)
      "<html><head>".toList "<body>y</body></html>".toList (by decide)).2.1

/-- C2: the isolated page is closed only on the all-success path of
`render_to_image`. When loading the document throws (e.g. a `networkidle`
timeout in `page.set_content`) or the raster capture throws, the `except`
clause re-raises without running `page.close()` — the trace shows the
context was NOT destroyed on those failure paths, while the success path
does close it. -/
theorem render_to_image_context_leak (html_content : List Char)
    (css_content : Option (List Char)) (width height : Option Int)
    (scale : Option ℚ) (full_page transparent : Bool) (e : RenderErr)
    (shot : Except RenderErr (List Nat)) (image_bytes : List Nat) :
    ((render_to_image html_content css_content width height scale
        full_page transparent (.error e) shot).2.pageClosed = false
      ∧ (render_to_image html_content css_content width height scale
          full_page transparent (.error e) shot).1 = .error e)
    ∧ ((render_to_image html_content css_content width height scale
        full_page transparent (.ok ()) (.error e)).2.pageClosed = false
      ∧ (render_to_image html_content css_content width height scale
          full_page transparent (.ok ()) (.error e)).1 = .error e)
    ∧ ((render_to_image html_content css_content width height scale
        full_page transparent (.ok ()) (.ok image_bytes)).2.pageClosed = true
      ∧ (render_to_image html_content css_content width height scale
          full_page transparent (.ok ()) (.ok image_bytes)).1 = .ok image_bytes) :=
  ⟨⟨rfl, rfl⟩, ⟨rfl, rfl⟩, ⟨rfl, rfl⟩⟩

lemma render_to_image_trace (html_content : List Char)
    (css_content : Option (List Char)) (width height : Option Int)
    (scale : Option ℚ) (full_page transparent : Bool)
    (lo : Except RenderErr Unit) (so : Except RenderErr (List Nat)) :
    (render_to_image html_content css_content width height scale
        full_page transparent lo so).2.viewportWidth
      = (validate_dimensions (orDefaultInt width render_config.default_width)
          (orDefaultInt height render_config.default_height)).width
    ∧ (render_to_image html_content css_content width height scale
        full_page transparent lo so).2.viewportHeight
      = (validate_dimensions (orDefaultInt width render_config.default_width)
          (orDefaultInt height render_config.default_height)).height
    ∧ (render_to_image html_content css_content width height scale
        full_page transparent lo so).2.deviceScaleFactor
      = orDefaultQ scale render_config.default_scale
    ∧ (render_to_image html_content css_content width height scale
        full_page transparent lo so).2.clampWarned
      = (validate_dimensions (orDefaultInt width render_config.default_width)
          (orDefaultInt height render_config.default_height)).warned := by
  cases lo <;> cases so <;> exact ⟨rfl, rfl, rfl, rfl⟩

/-- C10: a render call with width, height or scale equal to `0` (or unset)
replaces that value with the configured default (1024 / 768 / 1.0) via the
falsy-`or` substitution before clamping: the page is opened at the default
viewport, not at the clamp minimum of 1, and no clamp warning fires; a
non-zero value passes through the substitution unchanged. -/
theorem render_to_image_falsy_defaults (html_content : List Char)
    (css_content : Option (List Char)) (full_page transparent : Bool)
    (lo : Except RenderErr Unit) (so : Except RenderErr (List Nat)) :
    ((render_to_image html_content css_content (some 0) (some 0) (some 0)
        full_page transparent lo so).2.viewportWidth = 1024
      ∧ (render_to_image html_content css_content (some 0) (some 0) (some 0)
          full_page transparent lo so).2.viewportHeight = 768
      ∧ (render_to_image html_content css_content (some 0) (some 0) (some 0)
          full_page transparent lo so).2.deviceScaleFactor = 1
      ∧ (render_to_image html_content css_content (some 0) (some 0) (some 0)
          full_page transparent lo so).2.clampWarned = false
      ∧ (render_to_image html_content css_content (some 0) (some 0) (some 0)
          full_page transparent lo so).2.viewportWidth ≠ 1)
    ∧ ((render_to_image html_content css_content none none none
        full_page transparent lo so).2.viewportWidth = 1024
      ∧ (render_to_image html_content css_content none none none
          full_page transparent lo so).2.viewportHeight = 768
      ∧ (render_to_image html_content css_content none none none
          full_page transparent lo so).2.deviceScaleFactor = 1
      ∧ (render_to_image html_content css_content none none none
          full_page transparent lo so).2.clampWarned = false)
    ∧ (∀ w : Int, w ≠ 0 → orDefaultInt (some w) render_config.default_width = w)
    ∧ (∀ s : ℚ, s ≠ 0 → orDefaultQ (some s) render_config.default_scale = s) := by
  obtain ⟨h1, h2, h3, h4⟩ := render_to_image_trace html_content css_content
    (some 0) (some 0) (some 0) full_page transparent lo so
  obtain ⟨g1, g2, g3, g4⟩ := render_to_image_trace html_content css_content
    none none none full_page transparent lo so
  refine ⟨⟨?_, ?_, ?_, ?_, ?_⟩, ⟨?_, ?_, ?_, ?_⟩, ?_, ?_⟩
  · rw [h1]; decide
  · rw [h2]; decide
  · rw [h3]; decide
  · rw [h4]; decide
  · rw [h1]; decide
  · rw [g1]; decide
  · rw [g2]; decide
  · rw [g3]; decide
  · rw [g4]; decide
  · intro w hw
    simp [orDefaultInt, hw]
  · intro s hs
    simp [orDefaultQ, hs]

/-- Witness for C10: the non-zero pass-through clauses at `7` and `1/2`. -/
theorem render_to_image_falsy_defaults_witness :
    orDefaultInt (some 7) render_config.default_width = 7
    ∧ orDefaultQ (some (1 / 2)) render_config.default_scale = 1 / 2 :=
  ⟨(render_to_image_falsy_defaults [] none false false (.ok ()) (.ok [])).2.2.1
      7 (by norm_num),
   (render_to_image_falsy_defaults [] none false false (.ok ()) (.ok [])).2.2.2
      (1 / 2) (by norm_num)⟩

/-- C8: `_generate_key` produces
`{prefix}/{year}/{month:2digit}/{day:2digit}/{uniqueId}.{extension}` — the
month and day fields are zero-padded to exactly two digits for every value
the calendar can produce — and with the same prefix, extension and calendar
date (the "same moment"), two different opaque unique identifiers always
yield different keys, independently of the payload bytes (which do not
enter the key at all). -/
theorem generate_key_format_and_unique :
    (∀ m, m < 100 → (pad2 m).length = 2)
    ∧ (∀ keyPrefix extension year month day : _, ∀ u1 u2 : List Char, u1 ≠ u2 →
        generate_key keyPrefix extension year month day u1
          ≠ generate_key keyPrefix extension year month day u2) := by
  constructor
  · decide
  · intro keyPrefix extension year month day u1 u2 hne heq
    apply hne
    simp only [generate_key] at heq
    have e1 := List.append_cancel_right heq
    have e2 := List.append_cancel_right e1
    exact List.append_cancel_left e2

/-- Witness for C8: two-digit padding at month 7, and distinct keys for the
distinct unique ids `aa` and `ab` on the same date with the same prefix and
extension. -/
theorem generate_key_format_and_unique_witness :
    (pad2 7).length = 2
    ∧ generate_key "images".toList "png".toList 2026 10 12 "aa".toList
        ≠ generate_key "images".toList "png".toList 2026 10 12 "ab".toList :=
  ⟨generate_key_format_and_unique.1 7 (by decide),
   generate_key_format_and_unique.2 "images".toList "png".toList 2026 10 12
     "aa".toList "ab".toList (by decide)⟩

/-- C7: with the bucket name unset, `upload_bytes` raises the
`NotConfigured` `ValueError` before the boto3 client is built, before a key
is generated and before any network call is attempted (all three effect
flags stay false); with a bucket set and the upstream `put_object` failing,
it re-raises the `ClientError` carrying the upstream error code. -/
theorem upload_bytes_failure_modes (bucket region : List Char)
    (endpoint_url : Option (List Char)) (dataLen : Nat)
    (content_type keyPrefix extension : List Char) (year month day : Nat)
    (unique_id : List Char) (putOutcome : Except (List Char) Unit) :
    (bucket = [] →
      upload_bytes bucket region endpoint_url dataLen content_type keyPrefix
          extension year month day unique_id putOutcome
        = (.error .notConfigured, ⟨false, false, false⟩))
    ∧ (bucket ≠ [] → ∀ code, putOutcome = .error code →
        (upload_bytes bucket region endpoint_url dataLen content_type keyPrefix
            extension year month day unique_id putOutcome).1
          = .error (.clientError code)
        ∧ (upload_bytes bucket region endpoint_url dataLen content_type keyPrefix
            extension year month day unique_id putOutcome).2
          = ⟨true, true, true⟩) := by
  constructor
  · rintro rfl
    rfl
  · rintro hb code rfl
    rw [upload_bytes, if_neg]
    · exact ⟨rfl, rfl⟩
    · simp [hb]

/-- Witness for C7: empty bucket at one input, upstream `AccessDenied` at a
configured bucket at another. -/
theorem upload_bytes_failure_modes_witness :
    upload_bytes [] "us-east-1".toList none 3 "image/png".toList "images".toList
        "png".toList 2026 10 12 "u".toList (.ok ())
      = (.error .notConfigured, ⟨false, false, false⟩)
    ∧ (upload_bytes "b".toList "us-east-1".toList none 3 "image/png".toList
        "images".toList "png".toList 2026 10 12 "u".toList
        (.error "AccessDenied".toList)).1
      = .error (.clientError "AccessDenied".toList) :=
  ⟨(upload_bytes_failure_modes [] "us-east-1".toList none 3 "image/png".toList
      "images".toList "png".toList 2026 10 12 "u".toList (.ok ())).1 rfl,
   ((upload_bytes_failure_modes "b".toList "us-east-1".toList none 3
      "image/png".toList "images".toList "png".toList 2026 10 12 "u".toList
      (.error "AccessDenied".toList)).2 (by decide) "AccessDenied".toList rfl).1⟩

/-- C3 counterexample: `delete_object` does NOT surface an upstream
failure — a `ClientError` (here `AccessDenied`) is caught, logged and
converted into the ordinary boolean return value `False` (`.ok false`),
not a propagated error. -/
theorem delete_object_swallows_error :
    delete_object "bucket".toList "k".toList (.error "AccessDenied".toList)
      = .ok false := rfl

/-- C3 amended: `upload_bytes` propagates an upstream storage error to its
caller (re-raising the `ClientError` with its upstream code), but
`delete_object` does not — it catches the upstream error and converts it
into the boolean result `False`, returning `True` only on upstream
success. -/
theorem s3_error_propagation (bucket region key : List Char)
    (endpoint_url : Option (List Char)) (dataLen : Nat)
    (content_type keyPrefix extension : List Char) (year month day : Nat)
    (unique_id : List Char) (code : List Char) :
    (bucket ≠ [] →
      (upload_bytes bucket region endpoint_url dataLen content_type keyPrefix
          extension year month day unique_id (.error code)).1
        = .error (.clientError code))
    ∧ delete_object bucket key (.error code) = .ok false
    ∧ delete_object bucket key (.ok ()) = .ok true := by
  refine ⟨?_, rfl, rfl⟩
  intro hb
  have hbe : bucket.isEmpty = false := by
    cases bucket with
    | nil => exact absurd rfl hb
    | cons a t => rfl
  simp [upload_bytes, hbe]

/-- Witness for the amended C3 at a configured bucket. -/
theorem s3_error_propagation_witness :
    (upload_bytes "b".toList "us-east-1".toList none 3 "image/png".toList
        "images".toList "png".toList 2026 10 12 "u".toList
        (.error "NoSuchBucket".toList)).1
      = .error (.clientError "NoSuchBucket".toList)
    ∧ delete_object "b".toList "k".toList (.error "NoSuchBucket".toList)
      = .ok false :=
  ⟨(s3_error_propagation "b".toList "us-east-1".toList "k".toList none 3
      "image/png".toList "images".toList "png".toList 2026 10 12 "u".toList
      "NoSuchBucket".toList).1 (by decide),
   (s3_error_propagation "b".toList "us-east-1".toList "k".toList none 3
      "image/png".toList "images".toList "png".toList 2026 10 12 "u".toList
      "NoSuchBucket".toList).2.1⟩

/-- C1 counterexample: delivery mode `both`, capture succeeded (bytes
`[1, 2, 3]` produced), storage unconfigured (empty bucket). The endpoint
raises the `HTTPException`, which reaches the caller as an error payload
only — the base64 inline data that was already computed into
`response_data` is discarded, and no result with populated inline data is
returned. -/
theorem generate_image_both_discards_inline :
    generate_image .both (.ok [1, 2, 3]) [] "us-east-1".toList none
        2026 10 12 "u".toList (.ok ())
      = .error ⟨"HTTP_ERROR".toList,
          "Bucket S3 não configurado. Configure a variável AWS_S3_BUCKET".toList⟩ := by
  rfl

/-- C1 amended: in delivery mode `both` with a successful capture, a
storage failure (bucket unset, or an upstream error from `put_object`)
makes the whole request fail with an error payload; the inline base64 data
already computed is discarded and no partial result carrying it is
returned. -/
theorem generate_image_both_storage_failure (image_bytes : List Nat)
    (bucket region : List Char) (endpoint_url : Option (List Char))
    (year month day : Nat) (unique_id : List Char) (code : List Char)
    (putOutcome : Except (List Char) Unit) :
    (generate_image .both (.ok image_bytes) [] region endpoint_url
        year month day unique_id putOutcome
      = .error ⟨"HTTP_ERROR".toList,
          "Bucket S3 não configurado. Configure a variável AWS_S3_BUCKET".toList⟩)
    ∧ (bucket ≠ [] →
        generate_image .both (.ok image_bytes) bucket region endpoint_url
            year month day unique_id (.error code)
          = .error ⟨"HTTP_ERROR".toList,
              "Erro ao gerar imagem: ".toList ++ code⟩)
    ∧ (∀ r, generate_image .both (.ok image_bytes) [] region endpoint_url
        year month day unique_id putOutcome ≠ .ok r) := by
  refine ⟨rfl, ?_, ?_⟩
  · intro hb
    have hbe : bucket.isEmpty = false := by
      cases bucket with
      | nil => exact absurd rfl hb
      | cons a t => rfl
    simp [generate_image, upload_bytes, hbe]
  · intro r h
    simp [generate_image] at h

/-- Witness for the amended C1: upstream `AccessDenied` with a configured
bucket ends in the error payload. -/
theorem generate_image_both_storage_failure_witness :
    generate_image .both (.ok [1, 2, 3]) "b".toList "us-east-1".toList none
        2026 10 12 "u".toList (.error "AccessDenied".toList)
      = .error ⟨"HTTP_ERROR".toList,
          "Erro ao gerar imagem: ".toList ++ "AccessDenied".toList⟩ :=
  (generate_image_both_storage_failure [1, 2, 3] "b".toList "us-east-1".toList
      none 2026 10 12 "u".toList "AccessDenied".toList
      (.error "AccessDenied".toList)).2.1 (by decide)

end HtmlToImage
